import Mathlib

/-!
# Verification of the polymarket-copy trading engine

A shallow embedding of the core of a Rust copy-trading engine, together
with theorems settling the behavioural claims about it.

Modelling conventions:
* `Decimal` (rust_decimal, 96-bit fixed precision) and `f64` are both
  modelled as `ℚ`.  Every claim below is either exact under this model or
  explicitly tolerates rounding; no claim hinges on the rounding behaviour
  of either numeric type.  Division by zero is `0` in `ℚ`; every division
  on a claim-relevant path in the source is guarded by a non-zero test.
* `DateTime<Utc>` is modelled as `ℤ` (Unix seconds).  chrono's
  `num_hours`/`num_days` truncate toward zero, modelled by `Int.div`.
* Sharpe/Sortino ratios use `f64::sqrt`, which has no exact rational
  model; they are represented by an arbitrary function parameter.  No
  claim depends on these two fields.
* Source functions that take `&self` only for configuration are modelled
  as functions whose first argument is the configuration.
* The interpolated `format!` reason strings are replaced by fixed literals;
  no claim depends on the interpolated text, only on which branch is taken.
-/

namespace PolymarketCopy

/-- chrono `Duration::num_hours`: seconds divided by 3600, truncated toward zero. -/
def numHours (secs : ℤ) : ℤ := Int.tdiv secs 3600

/-- chrono `Duration::num_days`: seconds divided by 86400, truncated toward zero. -/
def numDays (secs : ℤ) : ℤ := Int.tdiv secs 86400

/-- `models/trade.rs`: direction of a trade. -/
inductive TradeSide where
  | Buy
  | Sell
deriving DecidableEq, Repr

/-- `models/trade.rs`: individual trade record.  Fields not read by any
modelled routine (`market_title`, `transaction_hash`, `is_taker`,
`fee_usdc`, `id`) are kept where a claim-relevant routine touches them. -/
structure Trade where
  id : String
  trader_address : String
  market_id : String
  side : TradeSide
  outcome : String
  size : ℚ
  price : ℚ
  amount_usdc : ℚ
  timestamp : ℤ
deriving DecidableEq, Repr

/-- `models/metrics.rs`: comprehensive performance metrics for a trader. -/
structure TraderMetrics where
  address : String
  calculated_at : ℤ
  total_trades : ℕ
  total_volume : ℚ
  total_pnl : ℚ
  winning_trades : ℕ
  losing_trades : ℕ
  win_rate : ℚ
  avg_win : ℚ
  avg_loss : ℚ
  profit_factor : ℚ
  expectancy : ℚ
  max_drawdown : ℚ
  max_drawdown_usdc : ℚ
  peak_equity : ℚ
  sharpe_ratio : ℚ
  sortino_ratio : ℚ
  calmar_ratio : ℚ
  avg_holding_period_hours : ℚ
  trades_per_day : ℚ
  pnl_7d : ℚ
  pnl_30d : ℚ
  win_rate_7d : ℚ
  win_rate_30d : ℚ
deriving DecidableEq, Repr

namespace TraderMetrics

/-- `TraderMetrics::new`: empty metrics for an address (`calculated_at`,
a wall-clock read in the source, is taken as a parameter). -/
def new (address : String) (now : ℤ := 0) : TraderMetrics where
  address := address
  calculated_at := now
  total_trades := 0
  total_volume := 0
  total_pnl := 0
  winning_trades := 0
  losing_trades := 0
  win_rate := 0
  avg_win := 0
  avg_loss := 0
  profit_factor := 0
  expectancy := 0
  max_drawdown := 0
  max_drawdown_usdc := 0
  peak_equity := 0
  sharpe_ratio := 0
  sortino_ratio := 0
  calmar_ratio := 0
  avg_holding_period_hours := 0
  trades_per_day := 0
  pnl_7d := 0
  pnl_30d := 0
  win_rate_7d := 0
  win_rate_30d := 0

/-- `TraderMetrics::composite_score`: 0-100 weighted ranking score. -/
def composite_score (m : TraderMetrics) : ℚ :=
  if m.total_trades < 10 then 0
  else
    let win_rate_score := min (m.win_rate / (6/10)) 1 * 25
    let sharpe_score := max (min (m.sharpe_ratio / 2) 1) 0 * 25
    let drawdown_score := min (max (1 - m.max_drawdown / (1/2)) 0) 1 * 25
    let profit_score := max (min (m.total_pnl / 5000) 1) 0 * 15
    let momentum_score := if m.pnl_7d > 0 then min (m.pnl_7d / 500) 1 * 10 else 0
    win_rate_score + sharpe_score + drawdown_score + profit_score + momentum_score

end TraderMetrics

/-! ## Metrics engine (`metrics/calculator.rs`) -/

namespace MetricsCalculator

/-- `MetricsCalculator::calculate_pnl_metrics`: win/loss partition and
derived P&L statistics.  The Rust `partition(|p| p > 0)` puts every entry
with `p > 0` into `wins` and every other entry (including zeros) into
`losses`. -/
def calculate_pnl_metrics (m : TraderMetrics) (pnls : List ℚ) : TraderMetrics :=
  let wins := pnls.filter (fun p => 0 < p)
  let losses := pnls.filter (fun p => ¬ 0 < p)
  let m := { m with
    winning_trades := wins.length
    losing_trades := losses.length
    total_pnl := pnls.sum }
  let m := if pnls ≠ [] then
    { m with win_rate := (wins.length : ℚ) / (pnls.length : ℚ) } else m
  let m := if wins ≠ [] then
    { m with avg_win := wins.sum / (wins.length : ℚ) } else m
  let m := if losses ≠ [] then
    { m with avg_loss := (losses.map (fun l => |l|)).sum / (losses.length : ℚ) } else m
  let gross_profit := wins.sum
  let gross_loss := (losses.map (fun l => |l|)).sum
  let m := if 0 < gross_loss then
    { m with profit_factor := gross_profit / gross_loss } else m
  if pnls ≠ [] then { m with expectancy := m.total_pnl / (pnls.length : ℚ) } else m

/-- Loop state of `MetricsCalculator::calculate_drawdown`. -/
structure DrawdownAcc where
  equity : ℚ
  peak : ℚ
  max_dd : ℚ
  max_dd_pct : ℚ
deriving DecidableEq, Repr

/-- One iteration of the drawdown loop. -/
def drawdownStep (a : DrawdownAcc) (pnl : ℚ) : DrawdownAcc :=
  let equity := a.equity + pnl
  let peak := if equity > a.peak then equity else a.peak
  if 0 < peak then
    let dd := peak - equity
    let max_dd := if dd > a.max_dd then dd else a.max_dd
    let dd_pct := dd / peak
    let max_dd_pct := if dd_pct > a.max_dd_pct then dd_pct else a.max_dd_pct
    ⟨equity, peak, max_dd, max_dd_pct⟩
  else
    ⟨equity, peak, a.max_dd, a.max_dd_pct⟩

/-- `MetricsCalculator::calculate_drawdown`: running-peak drawdown over the
equity curve built from the P&L series, plus the Calmar ratio. -/
def calculate_drawdown (m : TraderMetrics) (pnls : List ℚ) : TraderMetrics :=
  if pnls = [] then m
  else
    let a := pnls.foldl drawdownStep ⟨0, 0, 0, 0⟩
    let m := { m with
      max_drawdown := a.max_dd_pct
      max_drawdown_usdc := a.max_dd
      peak_equity := a.peak }
    if 0 < a.max_dd_pct ∧ pnls ≠ [] then
      { m with calmar_ratio := m.total_pnl / (a.max_dd_pct * 100) }
    else m

/-- `MetricsCalculator::calculate_sharpe_sortino`.  The body uses `f64`
square roots (`std_dev`, `sqrt 365`), which have no exact rational model;
the resulting pair of fields is produced by the arbitrary parameter
`sharpeFn`.  No claim depends on these two fields. -/
def calculate_sharpe_sortino (sharpeFn : List ℚ → ℚ × ℚ)
    (m : TraderMetrics) (pnls : List ℚ) : TraderMetrics :=
  if pnls.length < 2 then m
  else
    let p := sharpeFn pnls
    { m with sharpe_ratio := p.1, sortino_ratio := p.2 }

/-- `MetricsCalculator::calculate_time_metrics`.  The source sorts the
trades by timestamp and takes the first/last element; this equals the minimum
and maximum timestamp, used directly here. -/
def calculate_time_metrics (m : TraderMetrics) (trades : List Trade) : TraderMetrics :=
  if trades.length < 2 then m
  else
    let ts := trades.map (·.timestamp)
    let firstTs := ts.foldl min (ts.headD 0)
    let lastTs := ts.foldl max (ts.headD 0)
    let days : ℚ := ((max (numDays (lastTs - firstTs)) 1 : ℤ) : ℚ)
    let m := { m with trades_per_day := (trades.length : ℚ) / days }
    if 0 < m.trades_per_day then
      { m with avg_holding_period_hours := 24 / m.trades_per_day }
    else m

/-- `MetricsCalculator::calculate_recent_metrics`: the 7-day / 30-day P&L
is `total_pnl` scaled by the *fraction of trades* falling inside the
window (the source comment reads "Simplified: proportionally estimate
based on trade counts").  `now` models the `Utc::now()` read. -/
def calculate_recent_metrics (m : TraderMetrics) (trades : List Trade)
    (pnls : List ℚ) (now : ℤ) : TraderMetrics :=
  let seven_days_ago := now - 7 * 86400
  let thirty_days_ago := now - 30 * 86400
  let trades_7d := trades.filter (fun t => seven_days_ago ≤ t.timestamp)
  let trades_30d := trades.filter (fun t => thirty_days_ago ≤ t.timestamp)
  let total_trades := trades.length
  let m := if 0 < total_trades ∧ pnls ≠ [] then
    let ratio_7d : ℚ := (trades_7d.length : ℚ) / (total_trades : ℚ)
    let ratio_30d : ℚ := (trades_30d.length : ℚ) / (total_trades : ℚ)
    { m with
      pnl_7d := m.total_pnl * ratio_7d
      pnl_30d := m.total_pnl * ratio_30d }
    else m
  { m with win_rate_7d := m.win_rate, win_rate_30d := m.win_rate }

/-- `MetricsCalculator::calculate`: top-level metric computation.
`now` models the `Utc::now()` reads, `sharpeFn` the floating-point
Sharpe/Sortino computation (see `calculate_sharpe_sortino`). -/
def calculate (sharpeFn : List ℚ → ℚ × ℚ) (address : String)
    (trades : List Trade) (resolved_pnls : List ℚ) (now : ℤ) : TraderMetrics :=
  let m := TraderMetrics.new address now
  if trades = [] then m
  else
    let m := { m with
      total_trades := trades.length
      total_volume := (trades.map (·.amount_usdc)).sum }
    let m := if resolved_pnls ≠ [] then
      let m := calculate_pnl_metrics m resolved_pnls
      let m := calculate_drawdown m resolved_pnls
      calculate_sharpe_sortino sharpeFn m resolved_pnls
    else m
    let m := calculate_time_metrics m trades
    let m := calculate_recent_metrics m trades resolved_pnls now
    { m with calculated_at := now }

end MetricsCalculator

/-! ## Position model (`models/position.rs`) -/

/-- `models/position.rs`: current position in a prediction market.
`last_updated` (a write-only wall-clock bookkeeping field) is omitted;
no modelled operation reads it. -/
structure Position where
  trader_address : String
  market_id : String
  market_title : String
  outcome : String
  size : ℚ
  average_price : ℚ
  current_price : ℚ
  initial_value : ℚ
  current_value : ℚ
  unrealized_pnl : ℚ
  unrealized_pnl_pct : ℚ
deriving DecidableEq, Repr

namespace Position

/-- `Position::new`: create a new position from initial trade data. -/
def new (trader_address market_id outcome : String) (size price : ℚ) : Position :=
  let initial_value := size * price
  { trader_address := trader_address
    market_id := market_id
    market_title := ""
    outcome := outcome
    size := size
    average_price := price
    current_price := price
    initial_value := initial_value
    current_value := initial_value
    unrealized_pnl := 0
    unrealized_pnl_pct := 0 }

/-- `Position::update_price`: refresh mark-to-market fields. -/
def update_price (p : Position) (current_price : ℚ) : Position :=
  let current_value := p.size * current_price
  let unrealized_pnl := current_value - p.initial_value
  let p := { p with
    current_price := current_price
    current_value := current_value
    unrealized_pnl := unrealized_pnl }
  if p.initial_value ≠ 0 then
    { p with unrealized_pnl_pct := p.unrealized_pnl / p.initial_value }
  else p

/-- `Position::add`: average in an additional fill. -/
def add (p : Position) (size price : ℚ) : Position :=
  let new_cost := size * price
  let total_cost := p.initial_value + new_cost
  let new_size := p.size + size
  let p := if new_size ≠ 0 then
    { p with average_price := total_cost / new_size }
  else p
  let p := { p with size := new_size, initial_value := total_cost }
  p.update_price p.current_price

/-- `Position::reduce`: reduce the held size (clamped to what is held),
returning the updated position together with the realized P&L. -/
def reduce (p : Position) (size : ℚ) : Position × ℚ :=
  let reduce_size := min size p.size
  let realized_pnl := reduce_size * (p.current_price - p.average_price)
  let p := { p with size := p.size - reduce_size }
  let p := { p with initial_value := p.size * p.average_price }
  (p.update_price p.current_price, realized_pnl)

end Position

/-! ## Position sizer (`trading/config.rs`, `trading/position_sizer.rs`) -/

/-- `trading/position_sizer.rs`: position sizing method. -/
inductive SizingMethod where
  | Kelly
  | FixedFraction
  | RiskParity
  | Equal
deriving DecidableEq, Repr

/-- `str::to_lowercase`: character-wise lowering (`String.toLower` itself
is implemented by a `partial` helper, which the kernel cannot evaluate;
this definition has the same behaviour on the configuration strings). -/
def toLowercase (s : String) : String := ⟨s.data.map Char.toLower⟩

/-- `SizingMethod::from_str` (the source lowercases its argument first). -/
def SizingMethod.from_str (s : String) : SizingMethod :=
  let s := toLowercase s
  if s = "kelly" then .Kelly
  else if s = "fixed" ∨ s = "fixed_fraction" then .FixedFraction
  else if s = "risk_parity" ∨ s = "riskparity" then .RiskParity
  else .Equal

/-- `trading/config.rs`: configuration for trading and position sizing. -/
structure TradingConfig where
  max_portfolio_allocation : ℚ
  max_single_position : ℚ
  min_trade_size : ℚ
  max_trade_size : ℚ
  max_drawdown_pct : ℚ
  slippage_tolerance : ℚ
  sizing_method : String
  kelly_fraction : ℚ
  min_win_rate : ℚ
  min_trades : ℕ
  min_profit : ℚ
  max_trader_mdd : ℚ
  min_sharpe : ℚ
deriving DecidableEq, Repr

/-- `TradingConfig::default`. -/
def TradingConfig.default : TradingConfig where
  max_portfolio_allocation := 1/2
  max_single_position := 1/10
  min_trade_size := 1
  max_trade_size := 1000
  max_drawdown_pct := 1/5
  slippage_tolerance := 1/50
  sizing_method := "kelly"
  kelly_fraction := 1/4
  min_win_rate := 55/100
  min_trades := 20
  min_profit := 100
  max_trader_mdd := 2/5
  min_sharpe := 1/2

namespace PositionSizer

/-- `PositionSizer::kelly_size`: Kelly-criterion sizing.  The `f64`
conversions `to_f64().unwrap_or(..)` and `Decimal::try_from(..)` are exact
under the rational model.  When `avg_win = 0` the Rust `kelly = -q/0`
is `-∞ ≤ 0`; the rational `(-q)/0 = 0 ≤ 0` takes the same branch. -/
def kelly_size (config : TradingConfig) (base_size : ℚ)
    (metrics : Option TraderMetrics) (portfolio_value : ℚ) : ℚ :=
  match metrics with
  | none => base_size * (1/10)
  | some m =>
    if m.win_rate < 1/2 ∨ m.avg_loss = 0 then 0
    else
      let p := m.win_rate
      let q := 1 - p
      let b := m.avg_win / m.avg_loss
      let kelly := (p * b - q) / b
      if kelly ≤ 0 then 0
      else
        let adjusted_kelly := kelly * config.kelly_fraction
        let drawdown_penalty := 1 - min m.max_drawdown (9/10)
        let final_kelly := adjusted_kelly * drawdown_penalty
        let kellySize := portfolio_value * final_kelly
        min kellySize base_size

/-- `PositionSizer::fixed_fraction_size`. -/
def fixed_fraction_size (config : TradingConfig) (portfolio_value : ℚ) : ℚ :=
  portfolio_value * config.max_single_position

/-- `PositionSizer::risk_parity_size`. -/
def risk_parity_size (config : TradingConfig) (base_size : ℚ)
    (metrics : Option TraderMetrics) (portfolio_value : ℚ) : ℚ :=
  match metrics with
  | none => base_size * (1/2)
  | some m =>
    let volatility := max m.max_drawdown (1/10)
    let target_vol : ℚ := 1/10
    let vol_multiplier := target_vol / volatility
    let rpSize := portfolio_value * config.max_single_position * min vol_multiplier 2
    min rpSize base_size

/-- `PositionSizer::apply_constraints`: clamp to `[min_trade_size,
max_trade_size]`, cap by the single-position and portfolio-allocation
limits, and zero out sizes below the minimum. -/
def apply_constraints (config : TradingConfig) (size portfolio_value current_exposure : ℚ) : ℚ :=
  let final_size := max size config.min_trade_size
  let final_size := min final_size config.max_trade_size
  let max_position := portfolio_value * config.max_single_position
  let final_size := min final_size max_position
  let max_total := portfolio_value * config.max_portfolio_allocation
  let remaining_capacity := max_total - current_exposure
  if remaining_capacity ≤ 0 then 0
  else
    let final_size := min final_size remaining_capacity
    if final_size < config.min_trade_size then 0 else final_size

/-- `PositionSizer::calculate_size`: scale the source notional by the
portfolio ratio, apply the configured sizing method, then the constraints. -/
def calculate_size (config : TradingConfig) (source_trade_size source_portfolio_value
    our_portfolio_value : ℚ) (trader_metrics : Option TraderMetrics)
    (current_exposure : ℚ) : ℚ :=
  let base_multiplier := if 0 < source_portfolio_value
    then our_portfolio_value / source_portfolio_value else 1
  let raw_size := source_trade_size * base_multiplier
  let sized := match SizingMethod.from_str config.sizing_method with
    | .Kelly => kelly_size config raw_size trader_metrics our_portfolio_value
    | .FixedFraction => fixed_fraction_size config our_portfolio_value
    | .RiskParity => risk_parity_size config raw_size trader_metrics our_portfolio_value
    | .Equal => raw_size
  apply_constraints config sized our_portfolio_value current_exposure

end PositionSizer

/-! ## Strategy evaluator (`trading/strategy.rs`) -/

/-- `trading/strategy.rs`: trading strategy configuration. -/
structure StrategyConfig where
  max_trade_age_secs : ℤ
  min_entry_price : ℚ
  max_entry_price : ℚ
  max_entry_slippage : ℚ
  min_trader_score : ℚ
  require_profitable_trader : Bool
  min_market_liquidity : ℚ
  take_profit_pct : ℚ
  stop_loss_pct : ℚ
  max_holding_hours : ℤ
  follow_trader_exits : Bool
  exit_before_resolution_hours : ℤ
  max_portfolio_drawdown : ℚ
  max_concurrent_positions : ℕ
  max_single_market_exposure : ℚ
  min_trade_interval_secs : ℤ
  loss_cooloff_secs : ℤ
deriving DecidableEq, Repr

/-- `StrategyConfig::default`. -/
def StrategyConfig.default : StrategyConfig where
  max_trade_age_secs := 300
  min_entry_price := 1/20
  max_entry_price := 19/20
  max_entry_slippage := 3/100
  min_trader_score := 40
  require_profitable_trader := true
  min_market_liquidity := 1000
  take_profit_pct := 1/4
  stop_loss_pct := 3/20
  max_holding_hours := 168
  follow_trader_exits := true
  exit_before_resolution_hours := 24
  max_portfolio_drawdown := 1/5
  max_concurrent_positions := 10
  max_single_market_exposure := 1/4
  min_trade_interval_secs := 60
  loss_cooloff_secs := 300

/-- `trading/strategy.rs`: a position as seen by the strategy evaluator.
`side` is a plain string in the source too. -/
structure StrategyPosition where
  market_id : String
  outcome : String
  side : String
  entry_price : ℚ
  current_price : ℚ
  size : ℚ
  unrealized_pnl : ℚ
  opened_at : ℤ
  source_trader : Option String
deriving DecidableEq, Repr

namespace StrategyPosition

/-- `StrategyPosition::return_pct`: `(current − entry)/entry`.  Note that,
unlike `SimulatedPosition::return_pct` in `backtest.rs`, this does not
look at `side`. -/
def return_pct (p : StrategyPosition) : ℚ :=
  if p.entry_price = 0 then 0
  else (p.current_price - p.entry_price) / p.entry_price

/-- `StrategyPosition::holding_duration` in seconds (`Utc::now()` is the
explicit `sys_now` argument). -/
def holding_duration (p : StrategyPosition) (sys_now : ℤ) : ℤ :=
  sys_now - p.opened_at

end StrategyPosition

/-- `trading/strategy.rs`: result of entry validation. -/
structure EntryValidation where
  allowed : Bool
  reason : String
  adjusted_size : Option ℚ
deriving DecidableEq, Repr

/-- `EntryValidation::allow`. -/
def EntryValidation.allow (size : ℚ) : EntryValidation :=
  { allowed := true, reason := "Entry conditions met", adjusted_size := some size }

/-- `EntryValidation.deny`. -/
def EntryValidation.deny (reason : String) : EntryValidation :=
  { allowed := false, reason := reason, adjusted_size := none }

/-- `trading/strategy.rs`: reason for exit. -/
inductive ExitReason where
  | TakeProfit
  | StopLoss
  | MaxHoldingPeriod
  | TraderExited
  | MarketResolution
  | PortfolioRisk
  | ManualClose
  | None
deriving DecidableEq, Repr

/-- `trading/strategy.rs`: how urgently to exit. -/
inductive ExitUrgency where
  | Immediate
  | Normal
  | Low
  | None
deriving DecidableEq, Repr

/-- `trading/strategy.rs`: exit signal with reason. -/
structure ExitSignal where
  should_exit : Bool
  reason : ExitReason
  urgency : ExitUrgency
deriving DecidableEq, Repr

/-- `trading/strategy.rs`: portfolio state for risk evaluation. -/
structure PortfolioState where
  total_value : ℚ
  cash_available : ℚ
  total_exposure : ℚ
  unrealized_pnl : ℚ
  realized_pnl : ℚ
  current_drawdown : ℚ
  position_count : ℕ
  last_trade_at : Option ℤ
  last_loss_at : Option ℤ
deriving DecidableEq, Repr

namespace Strategy

/-- `Strategy::check_portfolio_constraints`: drawdown, position count and
cash checks.  A `some` result is returned unchanged by `validate_entry` —
including the `allow(cash)` clamp, which therefore short-circuits every
later rule. -/
def check_portfolio_constraints (config : StrategyConfig)
    (portfolio : PortfolioState) (proposed_size : ℚ) : Option EntryValidation :=
  if config.max_portfolio_drawdown ≤ portfolio.current_drawdown then
    some (EntryValidation.deny ("Portfolio drawdown too high"))
  else if config.max_concurrent_positions ≤ portfolio.position_count then
    some (EntryValidation.deny ("Too many positions"))
  else if portfolio.cash_available < proposed_size then
    if portfolio.cash_available < 1 then
      some (EntryValidation.deny ("Insufficient cash"))
    else
      some (EntryValidation.allow portfolio.cash_available)
  else
    none

/-- `Strategy::validate_entry`.  `reference_time` is the optional injected
clock used for the trade-age rule; `sys_now` models the direct
`Utc::now()` reads in the anti-churn and loss-cool-off rules (the source
calls `Utc::now()` there even when a reference time was injected). -/
def validate_entry (config : StrategyConfig) (source_trade_time : ℤ)
    (current_price source_price proposed_size : ℚ)
    (trader_metrics : Option TraderMetrics) (portfolio : PortfolioState)
    (market_positions : List StrategyPosition)
    (reference_time : Option ℤ) (sys_now : ℤ) : EntryValidation :=
  let now := reference_time.getD sys_now
  let trade_age := now - source_trade_time
  if config.max_trade_age_secs < trade_age then
    EntryValidation.deny ("Trade too old")
  else if current_price < config.min_entry_price then
    EntryValidation.deny ("Price too low")
  else if config.max_entry_price < current_price then
    EntryValidation.deny ("Price too high")
  else
    let slippage := if 0 < source_price
      then |(current_price - source_price) / source_price| else 0
    if config.max_entry_slippage < slippage then
      EntryValidation.deny ("Slippage too high")
    else
      let metricsCheck : Option EntryValidation := match trader_metrics with
        | none => none
        | some metrics =>
          if metrics.composite_score < config.min_trader_score then
            some (EntryValidation.deny ("Trader score too low"))
          else if config.require_profitable_trader ∧ metrics.total_pnl ≤ 0 then
            some (EntryValidation.deny ("Trader not profitable overall"))
          else none
      match metricsCheck with
      | some v => v
      | none =>
        match check_portfolio_constraints config portfolio proposed_size with
        | some validation => validation
        | none =>
          let market_exposure := (market_positions.map (·.size)).sum
          let max_market := portfolio.total_value * config.max_single_market_exposure
          if max_market < market_exposure + proposed_size then
            let allowed_size := max (max_market - market_exposure) 0
            if allowed_size < 1 then
              EntryValidation.deny ("Market exposure limit")
            else
              EntryValidation.allow allowed_size
          else
            let churn : Option EntryValidation := match portfolio.last_trade_at with
              | none => none
              | some last_trade =>
                let since_last := sys_now - last_trade
                if since_last < config.min_trade_interval_secs then
                  some (EntryValidation.deny ("Too soon after last trade"))
                else none
            match churn with
            | some v => v
            | none =>
              let cooloff : Option EntryValidation := match portfolio.last_loss_at with
                | none => none
                | some last_loss =>
                  let since_loss := sys_now - last_loss
                  if since_loss < config.loss_cooloff_secs then
                    some (EntryValidation.deny ("In loss cool-off period"))
                  else none
              match cooloff with
              | some v => v
              | none => EntryValidation.allow proposed_size

/-- `Strategy::check_exit`: priority-ordered exit signalling.  `sys_now`
models the `Utc::now()` reads (holding duration and resolution distance). -/
def check_exit (config : StrategyConfig) (position : StrategyPosition)
    (portfolio : PortfolioState) (trader_still_holding : Bool)
    (market_resolution_time : Option ℤ) (sys_now : ℤ) : ExitSignal :=
  let return_pct := position.return_pct
  if config.take_profit_pct ≤ return_pct then
    { should_exit := true, reason := .TakeProfit, urgency := .Normal }
  else if return_pct ≤ -config.stop_loss_pct then
    { should_exit := true, reason := .StopLoss, urgency := .Immediate }
  else
    let holding_hours := numHours (position.holding_duration sys_now)
    if config.max_holding_hours ≤ holding_hours then
      { should_exit := true, reason := .MaxHoldingPeriod, urgency := .Normal }
    else if config.follow_trader_exits ∧ ¬ trader_still_holding then
      { should_exit := true, reason := .TraderExited, urgency := .Normal }
    else
      let resolution : Option ExitSignal := match market_resolution_time with
        | none => none
        | some resolution_time =>
          let hours_to_resolution := numHours (resolution_time - sys_now)
          if hours_to_resolution ≤ config.exit_before_resolution_hours ∧
              0 < hours_to_resolution then
            some { should_exit := true, reason := .MarketResolution, urgency := .Normal }
          else none
      match resolution with
      | some s => s
      | none =>
        if config.max_portfolio_drawdown ≤ portfolio.current_drawdown then
          { should_exit := true, reason := .PortfolioRisk, urgency := .Immediate }
        else
          { should_exit := false, reason := .None, urgency := .None }

/-- `Strategy::should_halt_trading` (the reason string is elided). -/
def should_halt_trading (config : StrategyConfig) (portfolio : PortfolioState) : Bool :=
  config.max_portfolio_drawdown ≤ portfolio.current_drawdown

end Strategy

/-! ## Backtest engine (`backtest.rs`) -/

/-- `backtest.rs`: backtesting configuration. -/
structure BacktestConfig where
  initial_capital : ℚ
  trading_config : TradingConfig
  strategy_config : StrategyConfig
  slippage : ℚ
  fee_rate : ℚ
  lookback_trades : ℕ
deriving DecidableEq, Repr

/-- `BacktestConfig::default`. -/
def BacktestConfig.default : BacktestConfig where
  initial_capital := 10000
  trading_config := TradingConfig.default
  strategy_config := StrategyConfig.default
  slippage := 1/200
  fee_rate := 1/1000
  lookback_trades := 500

/-- `backtest.rs`: a simulated position during backtesting. -/
structure SimulatedPosition where
  market_id : String
  outcome : String
  side : TradeSide
  size : ℚ
  entry_price : ℚ
  entry_time : ℤ
  source_trader : String
deriving DecidableEq, Repr

namespace SimulatedPosition

/-- `SimulatedPosition::pnl_at`: P&L at a given price (side-aware). -/
def pnl_at (p : SimulatedPosition) (current_price : ℚ) : ℚ :=
  match p.side with
  | .Buy => (current_price - p.entry_price) * p.size
  | .Sell => (p.entry_price - current_price) * p.size

/-- `SimulatedPosition::return_pct`: return percentage (side-aware, unlike
`StrategyPosition::return_pct`). -/
def return_pct (p : SimulatedPosition) (current_price : ℚ) : ℚ :=
  if p.entry_price = 0 then 0
  else match p.side with
    | .Buy => (current_price - p.entry_price) / p.entry_price
    | .Sell => (p.entry_price - current_price) / p.entry_price

end SimulatedPosition

/-- `backtest.rs`: a completed trade in the backtest. -/
structure BacktestTrade where
  market_id : String
  outcome : String
  side : TradeSide
  size : ℚ
  entry_price : ℚ
  exit_price : ℚ
  entry_time : ℤ
  exit_time : ℤ
  pnl : ℚ
  return_pct : ℚ
  source_trader : String
  exit_reason : String
deriving DecidableEq, Repr

/-- `format!("\x7b:?\x7d", side)`: the Debug rendering of `TradeSide`. -/
def TradeSide.debugStr : TradeSide → String
  | .Buy => "Buy"
  | .Sell => "Sell"

/-- The `HashMap<String, SimulatedPosition>` of the simulator, modelled as
an association list whose insert replaces the binding at the key. -/
abbrev PositionMap := List (String × SimulatedPosition)

/-- `HashMap::get`. -/
def lookupPos : PositionMap → String → Option SimulatedPosition
  | [], _ => none
  | kv :: rest, key => if kv.1 = key then some kv.2 else lookupPos rest key

/-- `HashMap::remove`. -/
def eraseKey (ps : PositionMap) (key : String) : PositionMap :=
  ps.filter (fun kv => kv.1 ≠ key)

/-- `HashMap::insert` (replaces any existing binding at `key`). -/
def insertPos (ps : PositionMap) (key : String) (v : SimulatedPosition) : PositionMap :=
  (key, v) :: eraseKey ps key

/-- Sum of `size * entry_price` over the open simulated positions (the
`exposure` accumulation of the simulation loop). -/
def basisSum (ps : PositionMap) : ℚ :=
  (ps.map (fun kv => kv.2.size * kv.2.entry_price)).sum

/-- Sum of `pnl_at price` over the open simulated positions (the
`unrealized` accumulation of the simulation loop). -/
def unrealizedSum (ps : PositionMap) (price : ℚ) : ℚ :=
  (ps.map (fun kv => kv.2.pnl_at price)).sum

/-- Sum of recorded `pnl` over completed backtest trades. -/
def pnlSum (ts : List BacktestTrade) : ℚ :=
  (ts.map (·.pnl)).sum

/-- The mutable locals of `Backtester::run_simulation_multi`, plus two
ghost accumulators (`entry_fees`, `lost_basis`) that track quantities the
source discards; they are written exactly where the corresponding source
effect happens and are read by no modelled operation, so they do not
alter behaviour.  `lost_basis` records the cost basis of a position that
`HashMap::insert` silently overwrites when a same-side trade re-opens an
already-open `(market, outcome)` key. -/
structure SimState where
  capital : ℚ
  positions : PositionMap
  completed_trades : List BacktestTrade
  equity_curve : List (ℤ × ℚ)
  total_fees : ℚ
  skipped : ℕ
  peak_equity : ℚ
  max_drawdown : ℚ
  last_trade_time : Option ℤ
  last_loss_time : Option ℤ
  entry_fees : ℚ
  lost_basis : ℚ
deriving DecidableEq, Repr

namespace Backtester

/-- `Backtester::apply_slippage`. -/
def apply_slippage (config : BacktestConfig) (price : ℚ) (side : TradeSide) : ℚ :=
  match side with
  | .Buy => price * (1 + config.slippage)
  | .Sell => price * (1 - config.slippage)

/-- The position-key `format!("\x7b\x7d:\x7b\x7d", market_id, outcome)`. -/
def positionKey (trade : Trade) : String :=
  trade.market_id ++ ":" ++ trade.outcome

/-- The exit arm of the simulation loop (an opposite-side trade closes the
existing position at the slipped trade price, net of the exit fee). -/
def closePosition (config : BacktestConfig) (s : SimState) (trade : Trade)
    (position_key : String) (existing : SimulatedPosition) : SimState :=
  let exit_price := apply_slippage config trade.price trade.side
  let pnl := existing.pnl_at exit_price
  let ret := existing.return_pct exit_price
  let fee := exit_price * existing.size * config.fee_rate
  let net_pnl := pnl - fee
  { s with
    capital := s.capital + existing.size * existing.entry_price + net_pnl
    total_fees := s.total_fees + fee
    completed_trades := s.completed_trades ++
      [{ market_id := existing.market_id
         outcome := existing.outcome
         side := existing.side
         size := existing.size
         entry_price := existing.entry_price
         exit_price := exit_price
         entry_time := existing.entry_time
         exit_time := trade.timestamp
         pnl := net_pnl
         return_pct := ret
         source_trader := existing.source_trader
         exit_reason := "Trader Exit" }]
    last_loss_time := if net_pnl < 0 then some trade.timestamp else s.last_loss_time
    positions := eraseKey s.positions position_key
    last_trade_time := some trade.timestamp }

/-- The entry arm of the simulation loop: build the portfolio snapshot,
size the copy, validate it, then book the fill.  The source's call to
`validate_entry` spells only the first seven arguments (it predates the
`reference_time` parameter), so the trade-age rule runs against the
ambient clock, modelled by `sys_now`. -/
def tryEnter (config : BacktestConfig) (sys_now : ℤ) (s : SimState)
    (trader : String) (trade : Trade) (position_key : String) : SimState :=
  let exposure := basisSum s.positions
  let unrealized := unrealizedSum s.positions trade.price
  let current_equity := s.capital + unrealized
  let drawdown := if 0 < s.peak_equity
    then (s.peak_equity - current_equity) / s.peak_equity else 0
  let portfolio : PortfolioState :=
    { total_value := config.initial_capital
      cash_available := s.capital
      total_exposure := exposure
      unrealized_pnl := unrealized
      realized_pnl := current_equity - config.initial_capital - unrealized
      current_drawdown := drawdown
      position_count := s.positions.length
      last_trade_at := s.last_trade_time
      last_loss_at := s.last_loss_time }
  let market_positions : List StrategyPosition :=
    (s.positions.filter (fun kv => kv.2.market_id = trade.market_id)).map
      (fun kv =>
        { market_id := kv.2.market_id
          outcome := kv.2.outcome
          side := kv.2.side.debugStr
          entry_price := kv.2.entry_price
          current_price := trade.price
          size := kv.2.size
          unrealized_pnl := kv.2.pnl_at trade.price
          opened_at := kv.2.entry_time
          source_trader := some kv.2.source_trader })
  let source_portfolio : ℚ := 10000
  let base_size := PositionSizer.calculate_size config.trading_config
    trade.amount_usdc source_portfolio config.initial_capital none exposure
  let validation := Strategy.validate_entry config.strategy_config
    trade.timestamp trade.price trade.price base_size none portfolio
    market_positions none sys_now
  if ¬ validation.allowed then { s with skipped := s.skipped + 1 }
  else
    let size := validation.adjusted_size.getD base_size
    if size ≤ 0 then { s with skipped := s.skipped + 1 }
    else
      let entry_price := apply_slippage config trade.price trade.side
      let entry_fee := entry_price * size * config.fee_rate
      -- The source adds the entry fee to `total_fees` before the
      -- insufficient-capital check, so a skipped entry still counts it.
      let s := { s with total_fees := s.total_fees + entry_fee }
      let cost := entry_price * size + entry_fee
      if s.capital < cost then { s with skipped := s.skipped + 1 }
      else
        let capital := s.capital - cost
        let newPos : SimulatedPosition :=
          { market_id := trade.market_id
            outcome := trade.outcome
            side := trade.side
            size := size
            entry_price := entry_price
            entry_time := trade.timestamp
            source_trader := trader }
        let lost := match lookupPos s.positions position_key with
          | some old => old.size * old.entry_price
          | none => 0
        let positions := insertPos s.positions position_key newPos
        let current_equity :=
          capital + (positions.map
            (fun kv => kv.2.size * kv.2.entry_price + kv.2.pnl_at trade.price)).sum
        let peak_equity := if current_equity > s.peak_equity
          then current_equity else s.peak_equity
        let dd := (peak_equity - current_equity) / peak_equity
        let max_drawdown := if dd > s.max_drawdown then dd else s.max_drawdown
        { s with
          capital := capital
          positions := positions
          last_trade_time := some trade.timestamp
          peak_equity := peak_equity
          max_drawdown := max_drawdown
          equity_curve := s.equity_curve ++ [(trade.timestamp, current_equity)]
          entry_fees := s.entry_fees + entry_fee
          lost_basis := s.lost_basis + lost }

/-- One iteration of the `run_simulation_multi` loop: an opposite-side
trade on an open key closes that position, anything else goes through
sizing and entry validation. -/
def processTrade (config : BacktestConfig) (sys_now : ℤ) (s : SimState)
    (tt : String × Trade) : SimState :=
  let trade := tt.2
  let position_key := positionKey trade
  match lookupPos s.positions position_key with
  | some existing =>
    if existing.side ≠ trade.side then
      closePosition config s trade position_key existing
    else
      tryEnter config sys_now s tt.1 trade position_key
  | none => tryEnter config sys_now s tt.1 trade position_key

/-- The simulation state before the loop of `run_simulation_multi`
(`start_time` is the first trade's timestamp in the source). -/
def initState (config : BacktestConfig) (start_time : ℤ) : SimState where
  capital := config.initial_capital
  positions := []
  completed_trades := []
  equity_curve := [(start_time, config.initial_capital)]
  total_fees := 0
  skipped := 0
  peak_equity := config.initial_capital
  max_drawdown := 0
  last_trade_time := none
  last_loss_time := none
  entry_fees := 0
  lost_basis := 0

/-- The whole replay loop on a (trader, trade) sequence. -/
def runTrades (config : BacktestConfig) (sys_now : ℤ) (start_time : ℤ)
    (trades : List (String × Trade)) : SimState :=
  trades.foldl (processTrade config sys_now) (initState config start_time)

/-- The close-remaining-positions drain after the loop: each leftover
position is closed at its entry price with zero recorded P&L. -/
def closeRemaining (s : SimState) (end_time : ℤ) : SimState :=
  { s with
    capital := s.capital + basisSum s.positions
    positions := []
    completed_trades := s.completed_trades ++ s.positions.map (fun kv =>
      { market_id := kv.2.market_id
        outcome := kv.2.outcome
        side := kv.2.side
        size := kv.2.size
        entry_price := kv.2.entry_price
        exit_price := kv.2.entry_price
        entry_time := kv.2.entry_time
        exit_time := end_time
        pnl := 0
        return_pct := 0
        source_trader := kv.2.source_trader
        exit_reason := "End of Backtest" }) }

end Backtester

/-! ## Orchestrator (`bot.rs`, with the `db/mod.rs` tables it touches) -/

/-- `trading/copy_engine.rs`: a pending copy trade to be executed. -/
structure CopyTradeIntent where
  source_trader : String
  source_trade : Trade
  calculated_size : ℚ
  created_at : ℤ
deriving DecidableEq, Repr

/-- `db/mod.rs`: stored position row (open rows only; a closed row is
removed from the modelled table).  `opened_at` is kept as `ℤ`;
`id`/`updated_at` bookkeeping is omitted. -/
structure StoredPosition where
  market_id : String
  market_title : String
  outcome : String
  side : String
  size : ℚ
  entry_price : ℚ
  current_price : ℚ
  unrealized_pnl : ℚ
  source_trader : Option String
  opened_at : ℤ
deriving DecidableEq, Repr

/-- `bot.rs`: bot configuration. -/
structure BotConfig where
  portfolio_value : ℚ
  poll_interval_secs : ℕ
  dry_run : Bool
  trading_config : TradingConfig
  strategy_config : StrategyConfig
deriving Repr

/-- The orchestrator's mutable runtime state plus the database tables
`process_trade_intent` touches. -/
structure BotState where
  portfolio_value : ℚ
  cash_available : ℚ
  total_exposure : ℚ
  unrealized_pnl : ℚ
  realized_pnl : ℚ
  peak_equity : ℚ
  last_trade_at : Option ℤ
  last_loss_at : Option ℤ
  seen_trades : List String
  open_positions : List StoredPosition
  copy_trades : List (String × String)
deriving DecidableEq, Repr

/-- Externally observable effects of one `process_trade_intent` call, in
program order. -/
inductive BotEv where
  | saveCopyTrade (copy_trade_id trade_id : String)
  | markSeen (trade_id : String)
  | submitOrder (trade_id : String)
  | updateStatus (copy_trade_id status : String)
  | savePosition (trade_id : String)
deriving DecidableEq, Repr

namespace Bot

/-- The idempotency key: `format!("\x7b\x7d-\x7b\x7d-\x7b\x7d", trader_address,
market_id, timestamp.timestamp())`. -/
def mkTradeId (trade : Trade) : String :=
  trade.trader_address ++ "-" ++ trade.market_id ++ "-" ++ toString trade.timestamp

/-- `db.mark_trade_seen`: `INSERT OR IGNORE` into `seen_trades`. -/
def markSeenDb (seen : List String) (trade_id : String) : List String :=
  if trade_id ∈ seen then seen else seen ++ [trade_id]

/-- `db.get_open_positions`: open rows with `size > 0.0001`. -/
def getOpenPositions (s : BotState) : List StoredPosition :=
  s.open_positions.filter (fun r => 1/10000 < r.size)

/-- `Bot::convert_position`: stored row → strategy position. -/
def convert_position (stored : StoredPosition) : StrategyPosition :=
  { market_id := stored.market_id
    outcome := stored.outcome
    side := stored.side
    entry_price := stored.entry_price
    current_price := stored.current_price
    size := stored.size
    unrealized_pnl := stored.unrealized_pnl
    opened_at := stored.opened_at
    source_trader := stored.source_trader }

/-- `Bot::build_portfolio_state`. -/
def build_portfolio_state (s : BotState) : PortfolioState :=
  let current_equity := s.portfolio_value + s.realized_pnl + s.unrealized_pnl
  let drawdown := if 0 < s.peak_equity
    then max (s.peak_equity - current_equity) 0 / s.peak_equity else 0
  { total_value := s.portfolio_value
    cash_available := s.cash_available
    total_exposure := s.total_exposure
    unrealized_pnl := s.unrealized_pnl
    realized_pnl := s.realized_pnl
    current_drawdown := drawdown
    position_count := (getOpenPositions s).length
    last_trade_at := s.last_trade_at
    last_loss_at := s.last_loss_at }

/-- `Bot::get_market_positions`. -/
def get_market_positions (s : BotState) (market_id : String) : List StrategyPosition :=
  ((getOpenPositions s).filter (fun p => p.market_id = market_id)).map convert_position

/-- `db.save_position`: upsert keyed on `(market_id, outcome, side)`;
on conflict the sizes add and the entry price is size-weighted averaged. -/
def savePositionDb (rows : List StoredPosition) (market_id outcome side : String)
    (size entry_price : ℚ) (source_trader : Option String) (now : ℤ) : List StoredPosition :=
  if rows.any (fun r => r.market_id = market_id ∧ r.outcome = outcome ∧ r.side = side) then
    rows.map (fun r =>
      if r.market_id = market_id ∧ r.outcome = outcome ∧ r.side = side then
        { r with
          size := r.size + size
          entry_price := (r.entry_price * r.size + entry_price * size) / (r.size + size) }
      else r)
  else
    rows ++ [{ market_id := market_id
               market_title := ""
               outcome := outcome
               side := side
               size := size
               entry_price := entry_price
               current_price := 0
               unrealized_pnl := 0
               source_trader := source_trader
               opened_at := now }]

/-- `Bot::update_position_after_trade`: persist the fill and, for a Buy,
move its cost from cash to exposure. -/
def update_position_after_trade (s : BotState) (market_id outcome : String)
    (side : TradeSide) (size price : ℚ) (source_trader : Option String)
    (sys_now : ℤ) : BotState :=
  let side_str := match side with
    | .Buy => "BUY"
    | .Sell => "SELL"
  let rows := savePositionDb s.open_positions market_id outcome side_str
    size price source_trader sys_now
  let s := { s with open_positions := rows }
  let cost := size * price
  match side with
  | .Buy => { s with
      cash_available := s.cash_available - cost
      total_exposure := s.total_exposure + cost }
  | .Sell => s

/-- `db.update_copy_trade_status` (only the status column matters here). -/
def setCopyTradeStatus (rows : List (String × String)) (id status : String) :
    List (String × String) :=
  rows.map (fun r => if r.1 = id then (r.1, status) else r)

/-- `Bot::process_trade_intent`, returning the updated state and the
ordered list of external effects.  `copy_trade_id` models the fresh
`uuid`, `has_clob` models `clob_client.is_some()`, `exec_ok` the outcome
of the CLOB submission round-trip, and `sys_now` the `Utc::now()` reads.
`get_current_price` is the source's hard-coded `dec!(0.50)` placeholder.
As in `backtest.rs`, the call to `validate_entry` spells only the first
seven arguments, so no reference time is injected. -/
def process_trade_intent (config : BotConfig) (has_clob : Bool) (s : BotState)
    (intent : CopyTradeIntent) (copy_trade_id : String) (exec_ok : Bool)
    (sys_now : ℤ) : BotState × List BotEv :=
  let trade := intent.source_trade
  let trade_id := mkTradeId trade
  if trade_id ∈ s.seen_trades then (s, [])
  else
    let current_price : ℚ := 1/2
    let portfolio := build_portfolio_state s
    let market_positions := get_market_positions s trade.market_id
    let validation := Strategy.validate_entry config.strategy_config
      trade.timestamp current_price trade.price intent.calculated_size none
      portfolio market_positions none sys_now
    if ¬ validation.allowed then
      ({ s with seen_trades := markSeenDb s.seen_trades trade_id },
       [.markSeen trade_id])
    else
      let size := validation.adjusted_size.getD intent.calculated_size
      let s := { s with copy_trades := s.copy_trades ++ [(copy_trade_id, "pending")] }
      let s := { s with seen_trades := markSeenDb s.seen_trades trade_id }
      if config.dry_run ∨ ¬ has_clob then
        let s := { s with copy_trades := setCopyTradeStatus s.copy_trades copy_trade_id "simulated" }
        let s := update_position_after_trade s trade.market_id trade.outcome
          trade.side size current_price (some intent.source_trader) sys_now
        let s := { s with last_trade_at := some sys_now }
        (s, [.saveCopyTrade copy_trade_id trade_id, .markSeen trade_id,
             .updateStatus copy_trade_id "simulated", .savePosition trade_id])
      else if exec_ok then
        let s := { s with copy_trades := setCopyTradeStatus s.copy_trades copy_trade_id "executed" }
        let s := update_position_after_trade s trade.market_id trade.outcome
          trade.side size current_price (some intent.source_trader) sys_now
        let s := { s with last_trade_at := some sys_now }
        (s, [.saveCopyTrade copy_trade_id trade_id, .markSeen trade_id,
             .submitOrder trade_id, .updateStatus copy_trade_id "executed",
             .savePosition trade_id])
      else
        let s := { s with copy_trades := setCopyTradeStatus s.copy_trades copy_trade_id "failed" }
        let s := { s with last_trade_at := some sys_now }
        (s, [.saveCopyTrade copy_trade_id trade_id, .markSeen trade_id,
             .submitOrder trade_id, .updateStatus copy_trade_id "failed"])

end Bot

/-! ## Spec-side definitions and invariants

Definitions in this section are not translations of source code: they
state the properties the claims talk about (and, for refinement-style
claims, the spec's own formula, to be compared with the source's). -/

/-- Spec formula for the time-windowed P&L ("restrict the P&L vector to
trades with `timestamp ≥ now − window` before summing"): sum of exactly
those per-trade P&L values whose trade timestamp lies in the window. -/
def specWindowedPnl (trades : List Trade) (pnls : List ℚ) (now : ℤ)
    (windowDays : ℤ) : ℚ :=
  (((trades.zip pnls).filter
    (fun tp => now - windowDays * 86400 ≤ tp.1.timestamp)).map (·.2)).sum

/-- The `Position` data invariant: non-negative size, and cost basis
consistent with size times average entry price. -/
def PositionInvariant (p : Position) : Prop :=
  0 ≤ p.size ∧ p.initial_value = p.size * p.average_price

/-- Keys of the simulated-position map are pairwise distinct (always true
of a `HashMap`; maintained by the association-list model). -/
def NodupKeys (ps : PositionMap) : Prop :=
  (ps.map Prod.fst).Nodup

/-- The exact accounting identity the backtest book-keeping maintains:
cash plus open cost basis minus realized P&L equals the initial capital
minus the accumulated entry fees and minus any cost basis lost to
same-side re-entry overwrites. -/
def AccountingOk (initial : ℚ) (s : SimState) : Prop :=
  s.capital + basisSum s.positions - pnlSum s.completed_trades
    = initial - s.entry_fees - s.lost_basis

/-! ### Concrete fixtures used by counterexamples and witnesses -/

/-- Kelly "no-edge" metrics from the spec's scenario 4:
`win_rate = 0.4`, `avg_win = 100`, `avg_loss = 100`. -/
def zeroEdgeMetrics : TraderMetrics :=
  { TraderMetrics.new "0x123" with win_rate := 2/5, avg_win := 100, avg_loss := 100 }

/-- A Sell position whose price has fallen from 0.50 to 0.30: down 40 %
of entry, beyond both the default 25 % take-profit and 15 % stop-loss. -/
def fallenSellPosition : StrategyPosition where
  market_id := "m1"
  outcome := "Yes"
  side := "SELL"
  entry_price := 1/2
  current_price := 3/10
  size := 100
  unrealized_pnl := 20
  opened_at := 0
  source_trader := some "0x123"

/-- A healthy portfolio (no drawdown, cash on hand, no open positions). -/
def quietPortfolio : PortfolioState where
  total_value := 10000
  cash_available := 5000
  total_exposure := 0
  unrealized_pnl := 0
  realized_pnl := 0
  current_drawdown := 0
  position_count := 0
  last_trade_at := none
  last_loss_at := none

/-- A portfolio that just traded (`last_trade_at = now = 0`, so the
anti-churn rule fires) and whose cash (100) is below the proposed size. -/
def justTradedPortfolio : PortfolioState where
  total_value := 10000
  cash_available := 100
  total_exposure := 0
  unrealized_pnl := 0
  realized_pnl := 0
  current_drawdown := 0
  position_count := 0
  last_trade_at := some 0
  last_loss_at := none

/-- A fresh source trade: Buy 200 tokens of outcome Yes at 0.50 (notional
100) at time 0. -/
def sampleTrade : Trade where
  id := "t1"
  trader_address := "0xsrc"
  market_id := "m1"
  side := .Buy
  outcome := "Yes"
  size := 200
  price := 1/2
  amount_usdc := 100
  timestamp := 0

/-- A bot state whose `seen_trades` already contains `sampleTrade`'s
idempotency key. -/
def seenBotState : BotState where
  portfolio_value := 1000
  cash_available := 1000
  total_exposure := 0
  unrealized_pnl := 0
  realized_pnl := 0
  peak_equity := 1000
  last_trade_at := none
  last_loss_at := none
  seen_trades := [Bot.mkTradeId sampleTrade]
  open_positions := []
  copy_trades := []

/-- A copy-trade intent wrapping `sampleTrade`. -/
def sampleIntent : CopyTradeIntent where
  source_trader := "0xsrc"
  source_trade := sampleTrade
  calculated_size := 10
  created_at := 0

/-- An old trade (timestamp 0) and a recent trade (timestamp = day 100),
used for the time-windowed metrics claims. -/
def oldTrade : Trade := { sampleTrade with id := "t-old", timestamp := 0 }

/-- See `oldTrade`. -/
def recentTrade : Trade := { sampleTrade with id := "t-new", timestamp := 8640000 }

/-! # Theorems -/

/-- The default configuration dispatches to Kelly sizing. -/
theorem from_str_default_kelly : SizingMethod.from_str "kelly" = .Kelly := by decide

/--
**C1.** For trader metrics with `win_rate = 0.4, avg_win = 100,
avg_loss = 100` (the Kelly no-edge input), the method stage
(`kelly_size`) does return 0, but `calculate_size` then runs
`apply_constraints`, whose first step `final_size.max(min_trade_size)`
lifts the zero up to `min_trade_size = 1`, which survives every later
constraint under the default configuration (portfolio 1000, source
portfolio 10000, zero exposure).  The sizer therefore returns 1, not the
0 the claim (and the source's own "No edge, don't bet" comment) state.
-/
theorem C1_kelly_zero_edge_returns_min_trade_size :
    PositionSizer.kelly_size TradingConfig.default 10 (some zeroEdgeMetrics) 1000 = 0 ∧
    PositionSizer.calculate_size TradingConfig.default 100 10000 1000
      (some zeroEdgeMetrics) 0 = 1 := by
  constructor
  · norm_num [PositionSizer.kelly_size, TradingConfig.default, zeroEdgeMetrics,
      TraderMetrics.new]
  · norm_num [PositionSizer.calculate_size, PositionSizer.kelly_size,
      PositionSizer.apply_constraints, TradingConfig.default, from_str_default_kelly,
      zeroEdgeMetrics, TraderMetrics.new, min_def, max_def]

/--
**C4.** On the P&L series `[100, −300]` the equity falls to −200 while
the running peak is 100, so the drawdown fraction is `300/100 = 3`: the
metrics engine's `max_drawdown` is *not* bounded by 1 (contradicting the
field's own doc comment "(0.0 to 1.0)").  The lower bound 0 does hold
(`dd = peak − equity ≥ 0` whenever it is recorded), but this input
refutes the claimed upper bound.
-/
theorem C4_drawdown_exceeds_one :
    (MetricsCalculator.calculate_drawdown (TraderMetrics.new "0x123")
      [100, -300]).max_drawdown = 3 := by
  norm_num [MetricsCalculator.calculate_drawdown, MetricsCalculator.drawdownStep,
    TraderMetrics.new, List.foldl,
    show (([100, -300] : List ℚ) = []) = False by simp]

/--
**C5 (counterexample).** On the P&L series `[0]` the zero entry is
counted as a *losing* trade (`losing_trades = 1`), because the Rust
`partition(|p| p > 0)` puts every non-positive entry, zeros included,
into the losses.  The claim says a zero entry is counted in neither
bucket (`losing_trades = 0`).
-/
theorem C5_zero_pnl_counted_as_loss :
    (MetricsCalculator.calculate_pnl_metrics (TraderMetrics.new "0x123") [0]).winning_trades = 0 ∧
    (MetricsCalculator.calculate_pnl_metrics (TraderMetrics.new "0x123") [0]).losing_trades = 1 ∧
    (MetricsCalculator.calculate_pnl_metrics (TraderMetrics.new "0x123") [0]).total_pnl = 0 := by
  refine ⟨?_, ?_, ?_⟩ <;>
    norm_num [MetricsCalculator.calculate_pnl_metrics, TraderMetrics.new, List.filter,
      show (([0] : List ℚ) = []) = False by simp]

/--
**C5 (amended).** In the win/loss partition, `winning_trades` counts the
entries strictly greater than 0 and `losing_trades` counts the entries
less than *or equal to* 0 — zeros are counted as losses, not excluded —
while `total_pnl` is the sum of all entries, zeros included.
-/
theorem C5_partition_zero_in_losses (m : TraderMetrics) (pnls : List ℚ) :
    (MetricsCalculator.calculate_pnl_metrics m pnls).winning_trades
      = (pnls.filter (fun p => 0 < p)).length ∧
    (MetricsCalculator.calculate_pnl_metrics m pnls).losing_trades
      = (pnls.filter (fun p => p ≤ 0)).length ∧
    (MetricsCalculator.calculate_pnl_metrics m pnls).total_pnl = pnls.sum := by
  have hf : pnls.filter (fun p => ¬ 0 < p) = pnls.filter (fun p => p ≤ 0) := by
    apply List.filter_congr
    intro a _
    simp [not_lt]
  unfold MetricsCalculator.calculate_pnl_metrics
  rw [hf]
  dsimp only
  refine ⟨?_, ?_, ?_⟩ <;> split_ifs <;> rfl

/--
**C2 (counterexample).** A Sell position opened at 0.50 whose price has
fallen to 0.30 is down `(entry − current)/entry = 0.4` — beyond the
default 25 % take-profit threshold, so the claim predicts TakeProfit.
But `check_exit` computes `StrategyPosition::return_pct`, which is
`(current − entry)/entry = −0.4` regardless of side, and signals
StopLoss (urgency Immediate) instead.
-/
theorem C2_fallen_sell_gets_stop_loss :
    StrategyConfig.default.take_profit_pct ≤
      (fallenSellPosition.entry_price - fallenSellPosition.current_price)
        / fallenSellPosition.entry_price ∧
    Strategy.check_exit StrategyConfig.default fallenSellPosition quietPortfolio
      true none 0
      = { should_exit := true, reason := .StopLoss, urgency := .Immediate } := by
  constructor
  · norm_num [fallenSellPosition, StrategyConfig.default]
  · norm_num [Strategy.check_exit, StrategyPosition.return_pct, fallenSellPosition,
      quietPortfolio, StrategyConfig.default]

/--
**C2 (amended).** `check_exit` measures every position — Buy or Sell —
with the side-blind `StrategyPosition::return_pct = (current − entry)/entry`
(the side-aware formula of the claim exists only in the backtester's
`SimulatedPosition::return_pct`).  Consequently a position whose
side-blind return is below the take-profit threshold and at or below
`−stop_loss_pct` signals StopLoss with urgency Immediate; in particular a
Sell whose price has fallen that far signals StopLoss, never TakeProfit.
-/
theorem C2_check_exit_is_side_blind (cfg : StrategyConfig) (p : StrategyPosition)
    (portfolio : PortfolioState) (tsh : Bool) (mrt : Option ℤ) (sys_now : ℤ)
    (h0 : p.entry_price ≠ 0)
    (h1 : (p.current_price - p.entry_price) / p.entry_price < cfg.take_profit_pct)
    (h2 : (p.current_price - p.entry_price) / p.entry_price ≤ -cfg.stop_loss_pct) :
    p.return_pct = (p.current_price - p.entry_price) / p.entry_price ∧
    Strategy.check_exit cfg p portfolio tsh mrt sys_now
      = { should_exit := true, reason := .StopLoss, urgency := .Immediate } := by
  have hret : p.return_pct = (p.current_price - p.entry_price) / p.entry_price := by
    unfold StrategyPosition.return_pct
    rw [if_neg h0]
  refine ⟨hret, ?_⟩
  unfold Strategy.check_exit
  dsimp only
  rw [hret, if_neg (not_le.mpr h1), if_pos h2]

/-- Witness for `C2_check_exit_is_side_blind` at the concrete fallen
Sell position. -/
theorem C2_check_exit_is_side_blind_witness :
    fallenSellPosition.entry_price ≠ 0 ∧
    (fallenSellPosition.current_price - fallenSellPosition.entry_price)
        / fallenSellPosition.entry_price < StrategyConfig.default.take_profit_pct ∧
    (fallenSellPosition.current_price - fallenSellPosition.entry_price)
        / fallenSellPosition.entry_price ≤ -StrategyConfig.default.stop_loss_pct ∧
    (fallenSellPosition.return_pct
        = (fallenSellPosition.current_price - fallenSellPosition.entry_price)
          / fallenSellPosition.entry_price ∧
      Strategy.check_exit StrategyConfig.default fallenSellPosition quietPortfolio
        true none 0
        = { should_exit := true, reason := .StopLoss, urgency := .Immediate }) :=
  ⟨by norm_num [fallenSellPosition],
   by norm_num [fallenSellPosition, StrategyConfig.default],
   by norm_num [fallenSellPosition, StrategyConfig.default],
   C2_check_exit_is_side_blind StrategyConfig.default fallenSellPosition
     quietPortfolio true none 0
     (by norm_num [fallenSellPosition])
     (by norm_num [fallenSellPosition, StrategyConfig.default])
     (by norm_num [fallenSellPosition, StrategyConfig.default])⟩

/--
**C3 (counterexample).** An entry whose proposed size (500) exceeds the
available cash (100 ≥ 1) while the anti-churn rule fires
(`now − last_trade_at = 0 < min_trade_interval_secs = 60`) is *not*
denied: the rule-8 cash clamp inside `check_portfolio_constraints`
returns `Allow(cash)` immediately, so rules 9–11 are never evaluated.
The claim says the anti-churn rule would still be evaluated and deny.
-/
theorem C3_cash_clamp_skips_anti_churn :
    ((0 : ℤ) - 0 < StrategyConfig.default.min_trade_interval_secs) ∧
    (justTradedPortfolio.cash_available < 500) ∧
    Strategy.validate_entry StrategyConfig.default 0 (1/2) (1/2) 500 none
      justTradedPortfolio [] none 0 = EntryValidation.allow 100 := by
  refine ⟨by norm_num [StrategyConfig.default], by norm_num [justTradedPortfolio], ?_⟩
  norm_num [Strategy.validate_entry, Strategy.check_portfolio_constraints,
    StrategyConfig.default, justTradedPortfolio, EntryValidation.allow,
    EntryValidation.deny]

/--
**C3 (amended).** The eleven rules are evaluated in the §4.3 order, and
among the *denying* rules the first failure wins; but the rule-8 cash
clamp is an early `Allow(cash_available)` return: whenever rules 1–7
pass, the proposed size exceeds `cash_available`, and `cash_available ≥ 1`,
`validate_entry` returns `Allow(cash_available)` for every market
exposure list and every `last_trade_at`/`last_loss_at` — rules 9, 10 and
11 are not evaluated (the rule-9 clamp short-circuits rules 10–11 the
same way).
-/
theorem C3_cash_clamp_short_circuits (cfg : StrategyConfig) (t : ℤ)
    (current_price source_price proposed_size : ℚ) (portfolio : PortfolioState)
    (mps : List StrategyPosition) (rt : Option ℤ) (sn : ℤ)
    (h1 : rt.getD sn - t ≤ cfg.max_trade_age_secs)
    (h2 : cfg.min_entry_price ≤ current_price)
    (h3 : current_price ≤ cfg.max_entry_price)
    (h4 : (if 0 < source_price
        then |(current_price - source_price) / source_price| else 0)
      ≤ cfg.max_entry_slippage)
    (h6 : portfolio.current_drawdown < cfg.max_portfolio_drawdown)
    (h7 : portfolio.position_count < cfg.max_concurrent_positions)
    (h8 : portfolio.cash_available < proposed_size)
    (h9 : 1 ≤ portfolio.cash_available) :
    Strategy.validate_entry cfg t current_price source_price proposed_size none
      portfolio mps rt sn = EntryValidation.allow portfolio.cash_available := by
  unfold Strategy.validate_entry Strategy.check_portfolio_constraints
  dsimp only
  rw [if_neg (not_lt.mpr h1), if_neg (not_lt.mpr h2), if_neg (not_lt.mpr h3),
    if_neg (not_lt.mpr h4), if_neg (not_le.mpr h6), if_neg (not_le.mpr h7),
    if_pos h8, if_neg (not_lt.mpr h9)]

/-- Witness for `C3_cash_clamp_short_circuits` at the concrete
just-traded portfolio. -/
theorem C3_cash_clamp_short_circuits_witness :
    ((Option.getD (none : Option ℤ) 0) - 0 ≤ StrategyConfig.default.max_trade_age_secs) ∧
    (StrategyConfig.default.min_entry_price ≤ (1/2 : ℚ)) ∧
    ((1/2 : ℚ) ≤ StrategyConfig.default.max_entry_price) ∧
    ((if (0:ℚ) < 1/2 then |((1/2 : ℚ) - 1/2) / (1/2)| else 0)
      ≤ StrategyConfig.default.max_entry_slippage) ∧
    (justTradedPortfolio.current_drawdown < StrategyConfig.default.max_portfolio_drawdown) ∧
    (justTradedPortfolio.position_count < StrategyConfig.default.max_concurrent_positions) ∧
    (justTradedPortfolio.cash_available < 500) ∧
    ((1:ℚ) ≤ justTradedPortfolio.cash_available) ∧
    Strategy.validate_entry StrategyConfig.default 0 (1/2) (1/2) 500 none
      justTradedPortfolio [] none 0
      = EntryValidation.allow justTradedPortfolio.cash_available :=
  ⟨by norm_num [StrategyConfig.default],
   by norm_num [StrategyConfig.default],
   by norm_num [StrategyConfig.default],
   by norm_num [StrategyConfig.default],
   by norm_num [StrategyConfig.default, justTradedPortfolio],
   by norm_num [StrategyConfig.default, justTradedPortfolio],
   by norm_num [justTradedPortfolio],
   by norm_num [justTradedPortfolio],
   C3_cash_clamp_short_circuits StrategyConfig.default 0 (1/2) (1/2) 500
     justTradedPortfolio [] none 0
     (by norm_num [StrategyConfig.default])
     (by norm_num [StrategyConfig.default])
     (by norm_num [StrategyConfig.default])
     (by norm_num [StrategyConfig.default])
     (by norm_num [StrategyConfig.default, justTradedPortfolio])
     (by norm_num [StrategyConfig.default, justTradedPortfolio])
     (by norm_num [justTradedPortfolio])
     (by norm_num [justTradedPortfolio])⟩

/--
**C6 (counterexample).** Two trades — one 100 days old with P&L 100, one
inside the 7-day window with P&L 0 — give `total_pnl = 100`.  The
claimed windowed sum is 0 (only the recent trade's P&L qualifies), but
the engine reports `pnl_7d = 50`: it scales `total_pnl` by the *fraction
of trades* in the window (1 of 2), exactly the estimate the claim says
it does not use.
-/
theorem C6_pnl7d_is_ratio_estimate :
    (MetricsCalculator.calculate (fun _ => (0, 0)) "0x123" [oldTrade, recentTrade]
      [100, 0] 8640000).pnl_7d = 50 ∧
    specWindowedPnl [oldTrade, recentTrade] [100, 0] 8640000 7 = 0 := by
  constructor
  · norm_num [MetricsCalculator.calculate, MetricsCalculator.calculate_pnl_metrics,
      MetricsCalculator.calculate_drawdown, MetricsCalculator.drawdownStep,
      MetricsCalculator.calculate_sharpe_sortino, MetricsCalculator.calculate_time_metrics,
      MetricsCalculator.calculate_recent_metrics, TraderMetrics.new, oldTrade,
      recentTrade, sampleTrade, List.filter, List.foldl, numDays, min_def, max_def,
      show (([100, 0] : List ℚ) = []) = False by simp,
      show Int.tdiv 8640000 86400 = 100 by decide]
    split_ifs <;> simp_all
  · norm_num [specWindowedPnl, oldTrade, recentTrade, sampleTrade, List.filter,
      List.zip, List.zipWith]

/--
**C6 (amended).** Whenever there is at least one trade and one resolved
P&L value, the engine sets `pnl_7d` (resp. `pnl_30d`) to `total_pnl`
multiplied by the fraction of trades whose timestamp is within the last
7 (resp. 30) days — a count-ratio estimate, not the windowed sum of the
per-trade P&L values.
-/
theorem C6_recent_pnl_is_count_ratio (sharpeFn : List ℚ → ℚ × ℚ) (addr : String)
    (trades : List Trade) (pnls : List ℚ) (now : ℤ)
    (h1 : trades ≠ []) (h2 : pnls ≠ []) :
    (MetricsCalculator.calculate sharpeFn addr trades pnls now).pnl_7d
      = (MetricsCalculator.calculate sharpeFn addr trades pnls now).total_pnl
        * (((trades.filter (fun t => now - 7 * 86400 ≤ t.timestamp)).length : ℚ)
          / (trades.length : ℚ)) ∧
    (MetricsCalculator.calculate sharpeFn addr trades pnls now).pnl_30d
      = (MetricsCalculator.calculate sharpeFn addr trades pnls now).total_pnl
        * (((trades.filter (fun t => now - 30 * 86400 ≤ t.timestamp)).length : ℚ)
          / (trades.length : ℚ)) := by
  unfold MetricsCalculator.calculate MetricsCalculator.calculate_recent_metrics
  rw [if_neg h1]
  dsimp only
  rw [if_pos ⟨List.length_pos.mpr h1, h2⟩]
  exact ⟨rfl, rfl⟩

/-- Witness for `C6_recent_pnl_is_count_ratio` on the two-trade input. -/
theorem C6_recent_pnl_is_count_ratio_witness :
    ([oldTrade, recentTrade] ≠ []) ∧ (([100, 0] : List ℚ) ≠ []) ∧
    ((MetricsCalculator.calculate (fun _ => (0, 0)) "0x123" [oldTrade, recentTrade]
        [100, 0] 8640000).pnl_7d
      = (MetricsCalculator.calculate (fun _ => (0, 0)) "0x123" [oldTrade, recentTrade]
          [100, 0] 8640000).total_pnl
        * ((([oldTrade, recentTrade].filter
            (fun t => 8640000 - 7 * 86400 ≤ t.timestamp)).length : ℚ)
          / (([oldTrade, recentTrade] : List Trade).length : ℚ)) ∧
     (MetricsCalculator.calculate (fun _ => (0, 0)) "0x123" [oldTrade, recentTrade]
        [100, 0] 8640000).pnl_30d
      = (MetricsCalculator.calculate (fun _ => (0, 0)) "0x123" [oldTrade, recentTrade]
          [100, 0] 8640000).total_pnl
        * ((([oldTrade, recentTrade].filter
            (fun t => 8640000 - 30 * 86400 ≤ t.timestamp)).length : ℚ)
          / (([oldTrade, recentTrade] : List Trade).length : ℚ))) :=
  ⟨by simp, by simp,
   C6_recent_pnl_is_count_ratio (fun _ => (0, 0)) "0x123" [oldTrade, recentTrade]
     [100, 0] 8640000 (by simp) (by simp)⟩

/-! ### Field lemmas for `Position` operations -/

/-- `update_price` only touches the mark-to-market fields. -/
theorem update_price_size (p : Position) (c : ℚ) : (p.update_price c).size = p.size := by
  unfold Position.update_price
  dsimp only
  split_ifs <;> rfl

/-- See `update_price_size`. -/
theorem update_price_average (p : Position) (c : ℚ) :
    (p.update_price c).average_price = p.average_price := by
  unfold Position.update_price
  dsimp only
  split_ifs <;> rfl

/-- See `update_price_size`. -/
theorem update_price_initial (p : Position) (c : ℚ) :
    (p.update_price c).initial_value = p.initial_value := by
  unfold Position.update_price
  dsimp only
  split_ifs <;> rfl

/-- See `update_price_size`. -/
theorem update_price_current (p : Position) (c : ℚ) :
    (p.update_price c).current_price = c := by
  unfold Position.update_price
  dsimp only
  split_ifs <;> rfl

/-- The size after `add`. -/
theorem add_size (p : Position) (s pr : ℚ) : (p.add s pr).size = p.size + s := by
  unfold Position.add
  dsimp only
  rw [update_price_size]

/-- The cost basis after `add`. -/
theorem add_initial (p : Position) (s pr : ℚ) :
    (p.add s pr).initial_value = p.initial_value + s * pr := by
  unfold Position.add
  dsimp only
  rw [update_price_initial]

/-- The average entry price after `add`. -/
theorem add_average (p : Position) (s pr : ℚ) :
    (p.add s pr).average_price
      = if p.size + s ≠ 0 then (p.initial_value + s * pr) / (p.size + s)
        else p.average_price := by
  unfold Position.add
  dsimp only
  rw [update_price_average]
  split_ifs <;> rfl

/-- The current price after `add` is unchanged. -/
theorem add_current (p : Position) (s pr : ℚ) :
    (p.add s pr).current_price = p.current_price := by
  unfold Position.add
  dsimp only
  rw [update_price_current]
  split_ifs <;> rfl

/-- The realized P&L returned by `reduce`. -/
theorem reduce_snd (p : Position) (s : ℚ) :
    (p.reduce s).2 = min s p.size * (p.current_price - p.average_price) := rfl

/-- The size left by `reduce`. -/
theorem reduce_fst_size (p : Position) (s : ℚ) :
    ((p.reduce s).1).size = p.size - min s p.size := by
  unfold Position.reduce
  dsimp only
  rw [update_price_size]

/-- The cost basis left by `reduce`. -/
theorem reduce_fst_initial (p : Position) (s : ℚ) :
    ((p.reduce s).1).initial_value = (p.size - min s p.size) * p.average_price := by
  unfold Position.reduce
  dsimp only
  rw [update_price_initial]

/-- The average price left by `reduce` is unchanged. -/
theorem reduce_fst_average (p : Position) (s : ℚ) :
    ((p.reduce s).1).average_price = p.average_price := by
  unfold Position.reduce
  dsimp only
  rw [update_price_average]

/--
**C8.** Opening `(s1, p1)`, averaging in `(s2, p2)`, marking the price
to `p2` and reducing the full size `s1 + s2` realizes exactly
`s1 · (p2 − p1)`: the `(old_cost + add_cost)/new_size` average makes the
`s2` tranche P&L-neutral at `p2`, and in the exact rational model the
identity is literal (rust_decimal can deviate only by rounding).
-/
theorem C8_averaging_roundtrip (a m o : String) (s1 s2 p1 p2 : ℚ)
    (h1 : 0 ≤ s1) (h2 : 0 ≤ s2) (h3 : 0 < s1 + s2) :
    ((((Position.new a m o s1 p1).add s2 p2).update_price p2).reduce (s1 + s2)).2
      = s1 * (p2 - p1) := by
  have hne : s1 + s2 ≠ 0 := ne_of_gt h3
  rw [reduce_snd, update_price_size, update_price_current, update_price_average,
    add_size, add_average]
  unfold Position.new
  dsimp only
  rw [if_pos (by simpa using hne)]
  rw [show s1 + s2 = s1 + s2 from rfl, min_self]
  field_simp
  ring

/-- Witness for `C8_averaging_roundtrip`: buy 100 at 0.50, add 50 at
0.60, close all 150 at 0.60 → realized P&L `= 100·(0.60 − 0.50) = 10`. -/
theorem C8_averaging_roundtrip_witness :
    (0:ℚ) ≤ 100 ∧ (0:ℚ) ≤ 50 ∧ (0:ℚ) < 100 + 50 ∧
    ((((Position.new "0x1" "m1" "Yes" 100 (1/2)).add 50 (3/5)).update_price
        (3/5)).reduce (100 + 50)).2 = 100 * ((3:ℚ)/5 - 1/2) :=
  ⟨by norm_num, by norm_num, by norm_num,
   C8_averaging_roundtrip "0x1" "m1" "Yes" 100 50 (1/2) (3/5)
     (by norm_num) (by norm_num) (by norm_num)⟩

/--
**C10.** Every `Position` operation keeps `size` non-negative and the
cost basis equal to `size · average_price` (`new` needs a non-negative
opening size, `add` a non-negative added size); and `reduce` clamps the
requested reduction to the held size, so over-reducing leaves size
exactly 0, never negative.
-/
theorem C10_position_invariants :
    (∀ a m o s pr, 0 ≤ s → PositionInvariant (Position.new a m o s pr)) ∧
    (∀ p c, PositionInvariant p → PositionInvariant (p.update_price c)) ∧
    (∀ p s pr, PositionInvariant p → 0 ≤ s → PositionInvariant (p.add s pr)) ∧
    (∀ (p : Position) (s : ℚ), PositionInvariant p → PositionInvariant (p.reduce s).1) ∧
    (∀ (p : Position) (s : ℚ), p.size ≤ s → ((p.reduce s).1).size = 0) := by
  refine ⟨?_, ?_, ?_, ?_, ?_⟩
  · intro a m o s pr hs
    exact ⟨hs, rfl⟩
  · intro p c h
    refine ⟨?_, ?_⟩
    · rw [update_price_size]
      exact h.1
    · rw [update_price_initial, update_price_size, update_price_average]
      exact h.2
  · intro p s pr h hs
    refine ⟨?_, ?_⟩
    · rw [add_size]
      exact add_nonneg h.1 hs
    · rw [add_initial, add_size, add_average]
      by_cases hz : p.size + s = 0
      · have hps : p.size = 0 := le_antisymm (by linarith) h.1
        have hss : s = 0 := by linarith
        rw [if_neg (by simp [hz])]
        simp [hps, hss, h.2]
      · rw [if_pos hz]
        field_simp
  · intro p s h
    refine ⟨?_, ?_⟩
    · rw [reduce_fst_size]
      have := min_le_right s p.size
      linarith
    · rw [reduce_fst_initial, reduce_fst_size, reduce_fst_average]
  · intro p s h
    rw [reduce_fst_size, min_eq_right h]
    ring

/-- Witness for `C10_position_invariants`: a position of 100 tokens at
0.50 satisfies the invariant, and reducing it by 200 leaves size 0. -/
theorem C10_position_invariants_witness :
    ((0:ℚ) ≤ 100 ∧ PositionInvariant (Position.new "0x1" "m1" "Yes" 100 (1/2))) ∧
    ((Position.new "0x1" "m1" "Yes" 100 (1/2)).size ≤ 200 ∧
      (((Position.new "0x1" "m1" "Yes" 100 (1/2)).reduce 200).1).size = 0) :=
  ⟨⟨by norm_num,
    C10_position_invariants.1 "0x1" "m1" "Yes" 100 (1/2) (by norm_num)⟩,
   ⟨by norm_num [Position.new],
    C10_position_invariants.2.2.2.2 (Position.new "0x1" "m1" "Yes" 100 (1/2)) 200
      (by norm_num [Position.new])⟩⟩

/-! ### Lemmas about the orchestrator state -/

/-- `INSERT OR IGNORE` leaves the key present. -/
theorem mem_markSeenDb (seen : List String) (tid : String) :
    tid ∈ Bot.markSeenDb seen tid := by
  unfold Bot.markSeenDb
  split_ifs with h
  · exact h
  · simp

/-- `update_position_after_trade` does not touch `seen_trades`. -/
theorem update_position_after_trade_seen (s : BotState) (m o : String)
    (side : TradeSide) (sz pr : ℚ) (st : Option String) (now : ℤ) :
    (Bot.update_position_after_trade s m o side sz pr st now).seen_trades
      = s.seen_trades := by
  unfold Bot.update_position_after_trade
  dsimp only
  cases side <;> rfl

/-- Any call of `process_trade_intent` leaves the trade's idempotency
key in `seen_trades`: an already-seen trade keeps it, and every other
path inserts it via `mark_trade_seen` before returning. -/
theorem process_seen_after (config : BotConfig) (has_clob : Bool) (s : BotState)
    (intent : CopyTradeIntent) (ctid : String) (ok : Bool) (now : ℤ) :
    Bot.mkTradeId intent.source_trade ∈
      (Bot.process_trade_intent config has_clob s intent ctid ok now).1.seen_trades := by
  unfold Bot.process_trade_intent
  by_cases hseen : Bot.mkTradeId intent.source_trade ∈ s.seen_trades
  · rw [if_pos hseen]
    exact hseen
  · rw [if_neg hseen]
    dsimp only
    split_ifs <;>
      simp [update_position_after_trade_seen, mem_markSeenDb]

/-- A call on a state that has already seen the trade produces no
effects. -/
theorem process_seen_nil (config : BotConfig) (has_clob : Bool) (s : BotState)
    (intent : CopyTradeIntent) (ctid : String) (ok : Bool) (now : ℤ)
    (h : Bot.mkTradeId intent.source_trade ∈ s.seen_trades) :
    Bot.process_trade_intent config has_clob s intent ctid ok now = (s, []) := by
  unfold Bot.process_trade_intent
  rw [if_pos h]

/--
**C9.** `process_trade_intent` is at-most-once per idempotency key: a
trade whose `trade_id` is already in `seen_trades` is dropped with no
effect at all; otherwise the `seen_trades` insertion (`mark_trade_seen`)
strictly precedes, in program order, every order submission and every
position-mutating write of that call; and re-processing the same trade
against the resulting state produces no effects — in particular no
second submission and no second position mutation.
-/
theorem C9_trade_processed_at_most_once (config : BotConfig) (has_clob : Bool)
    (s : BotState) (intent : CopyTradeIntent) (ctid : String) (ok : Bool) (now : ℤ) :
    (Bot.mkTradeId intent.source_trade ∈ s.seen_trades →
      Bot.process_trade_intent config has_clob s intent ctid ok now = (s, [])) ∧
    (∀ (k : ℕ) (t : String),
      ((Bot.process_trade_intent config has_clob s intent ctid ok now).2.get? k
          = some (BotEv.submitOrder t) ∨
       (Bot.process_trade_intent config has_clob s intent ctid ok now).2.get? k
          = some (BotEv.savePosition t)) →
      ∃ j, j < k ∧ (Bot.process_trade_intent config has_clob s intent ctid ok now).2.get? j
          = some (BotEv.markSeen t)) ∧
    (∀ (ctid2 : String) (ok2 : Bool) (now2 : ℤ),
      (Bot.process_trade_intent config has_clob
        (Bot.process_trade_intent config has_clob s intent ctid ok now).1
        intent ctid2 ok2 now2).2 = []) := by
  refine ⟨process_seen_nil config has_clob s intent ctid ok now, ?_, ?_⟩
  · intro k t hk
    by_cases hseen : Bot.mkTradeId intent.source_trade ∈ s.seen_trades
    · rw [process_seen_nil config has_clob s intent ctid ok now hseen] at hk
      simp at hk
    · revert hk
      unfold Bot.process_trade_intent
      rw [if_neg hseen]
      dsimp only
      split_ifs <;> intro hk
      · obtain _ | k := k
        · simp at hk
        obtain _ | k := k
        · simp at hk
        obtain _ | k := k
        · simp at hk
        obtain _ | k := k
        · simp at hk
          subst hk
          exact ⟨1, by norm_num, rfl⟩
        · simp at hk
      · obtain _ | k := k
        · simp at hk
        obtain _ | k := k
        · simp at hk
        obtain _ | k := k
        · simp at hk
          subst hk
          exact ⟨1, by norm_num, rfl⟩
        obtain _ | k := k
        · simp at hk
        obtain _ | k := k
        · simp at hk
          subst hk
          exact ⟨1, by norm_num, rfl⟩
        · simp at hk
      · obtain _ | k := k
        · simp at hk
        obtain _ | k := k
        · simp at hk
        obtain _ | k := k
        · simp at hk
          subst hk
          exact ⟨1, by norm_num, rfl⟩
        obtain _ | k := k
        · simp at hk
        · simp at hk
      · obtain _ | k := k
        · simp at hk
        · simp at hk
  · intro ctid2 ok2 now2
    rw [process_seen_nil config has_clob _ intent ctid2 ok2 now2
      (process_seen_after config has_clob s intent ctid ok now)]

/-- Witness for `C9_trade_processed_at_most_once` at a concrete
already-seen state: the call returns the state unchanged with no
effects. -/
theorem C9_trade_processed_at_most_once_witness :
    Bot.mkTradeId sampleIntent.source_trade ∈ seenBotState.seen_trades ∧
    Bot.process_trade_intent
      { portfolio_value := 1000, poll_interval_secs := 30, dry_run := true,
        trading_config := TradingConfig.default,
        strategy_config := StrategyConfig.default }
      false seenBotState sampleIntent "c1" true 0 = (seenBotState, []) :=
  ⟨by simp [seenBotState, sampleIntent],
   (C9_trade_processed_at_most_once
      { portfolio_value := 1000, poll_interval_secs := 30, dry_run := true,
        trading_config := TradingConfig.default,
        strategy_config := StrategyConfig.default }
      false seenBotState sampleIntent "c1" true 0).1
     (by simp [seenBotState, sampleIntent])⟩

end PolymarketCopy
